import Mathlib

/-!
Verification development for the column-decoding core of a ClickHouse
native-protocol client (files `src/errors.rs` and `src/column/factory.rs`).

The data model and every operation below are shallow embeddings of the Rust
source: Rust enums become Lean inductives, `From` impls become explicit
conversion functions, `io::Error` becomes a kind/message structure, and the
fallible column loader returns `Except`.  Readers are modelled as the list
of bytes still available; machine integers are `Nat`/`Int` with explicit
two's-complement reinterpretation where the source reinterprets raw bytes.
-/

namespace ClickhouseRs

/-- Model of `std::io::ErrorKind` restricted to the kinds this crate
constructs or inspects (`WouldBlock`, `Other`, plus `UnexpectedEof` for
short reads of the byte source). -/
inductive IoErrorKind where
  | wouldBlock
  | other
  | unexpectedEof
  deriving DecidableEq, Repr

/-- Model of `std::io::Error`: an error kind together with its textual
payload (the argument of `io::Error::new`). -/
structure IoError where
  kind : IoErrorKind
  msg : String
  deriving DecidableEq, Repr

/-- Model of `std::str::Utf8Error` (external type, carried opaquely):
the position up to which input was valid and the length of the bad
sequence. -/
structure Utf8Error where
  valid_up_to : Nat
  error_len : Option Nat
  deriving DecidableEq, Repr

/-- Model of `std::string::FromUtf8Error` (external type, carried
opaquely): the offending bytes and the underlying `Utf8Error`. -/
structure FromUtf8Error where
  bytes : List Nat
  utf8_error : Utf8Error
  deriving DecidableEq, Repr

/-- Model of `tokio_timer::Error` (external type, carried opaquely). -/
structure TimerError where
  code : Nat
  deriving DecidableEq, Repr

/-- Model of `url::ParseError` (external type, carried opaquely). -/
structure ParseError where
  code : Nat
  deriving DecidableEq, Repr

/-- `ServerError` from `errors.rs`: structured Clickhouse server error. -/
structure ServerError where
  code : Nat
  name : String
  message : String
  stack_trace : String
  deriving DecidableEq, Repr

/-- `ConnectionError` from `errors.rs`.  The `TlsError` variant is behind
the `tls` cargo feature; its `native_tls::Error` payload is opaque. -/
inductive ConnectionError where
  | TlsHostNotProvided
  | IoError (e : IoError)
  | TlsError (e : String)
  deriving DecidableEq, Repr

/-- `UrlError` from `errors.rs`. -/
inductive UrlError where
  | Invalid
  | InvalidParamValue (param : String) (value : String)
  | Parse (e : ParseError)
  | UnknownParameter (param : String)
  | UnsupportedScheme (scheme : String)
  deriving DecidableEq, Repr

/-- `DriverError` from `errors.rs`. -/
inductive DriverError where
  | Overflow
  | UnknownPacket (packet : Nat)
  | UnexpectedPacket
  | Timeout
  | Utf8Error (e : Utf8Error)
  deriving DecidableEq, Repr

/-- `FromSqlError` from `errors.rs` (the TypeConversion category). -/
inductive FromSqlError where
  | InvalidType (src : String) (dst : String)
  | OutOfRange
  | UnsupportedOperation
  deriving DecidableEq, Repr

/-- Model of `failure::Error` payloads as this crate constructs them: a
`failure::Context` built from a `String`, a `FromUtf8Error`, or a
`TimerError` (the three `From` impls that target `Error::Other`). -/
inductive FailureError where
  | ofString (s : String)
  | ofFromUtf8 (e : FromUtf8Error)
  | ofTimer (e : TimerError)
  deriving DecidableEq, Repr

/-- The unified `Error` enum from `errors.rs`: a tagged union with exactly
one active variant. -/
inductive Error where
  | Driver (e : DriverError)
  | Io (e : IoError)
  | Connection (e : ConnectionError)
  | Other (e : FailureError)
  | Server (e : ServerError)
  | Url (e : UrlError)
  | FromSql (e : FromSqlError)
  deriving DecidableEq, Repr

/-- The seven classification tags of the unified error taxonomy
(spec section 4.5): Driver, Transport/IO, Connection, Other, Server,
URL/Config, TypeConversion. -/
inductive ErrorTag where
  | driver
  | transport
  | connection
  | other
  | server
  | url
  | fromSql
  deriving DecidableEq, Repr

/-- The active tag of a unified error value. -/
def Error.tag : Error → ErrorTag
  | .Driver _ => .driver
  | .Io _ => .transport
  | .Connection _ => .connection
  | .Other _ => .other
  | .Server _ => .server
  | .Url _ => .url
  | .FromSql _ => .fromSql

/-- `impl From<DriverError> for Error`. -/
def Error.fromDriver (e : DriverError) : Error := Error.Driver e

/-- `impl From<io::Error> for Error`. -/
def Error.fromIo (e : IoError) : Error := Error.Io e

/-- `impl From<ServerError> for Error`. -/
def Error.fromServer (e : ServerError) : Error := Error.Server e

/-- `impl From<UrlError> for Error`. -/
def Error.fromUrl (e : UrlError) : Error := Error.Url e

/-- `impl From<String> for Error`: wraps the string in a
`failure::Context` under the `Other` variant. -/
def Error.fromString (s : String) : Error := Error.Other (FailureError.ofString s)

/-- `impl From<FromUtf8Error> for Error`: wraps the fault in a
`failure::Context` under the `Other` variant. -/
def Error.fromFromUtf8 (e : FromUtf8Error) : Error := Error.Other (FailureError.ofFromUtf8 e)

/-- `impl From<TimerError> for Error`. -/
def Error.fromTimer (e : TimerError) : Error := Error.Other (FailureError.ofTimer e)

/-- `impl From<ParseError> for Error`. -/
def Error.fromParse (e : ParseError) : Error := Error.Url (UrlError.Parse e)

/-- Model of `tokio_timer::timeout::Error<T>`: either the wrapped
operation failed with an inner error, or the deadline elapsed, or the
timer itself failed. -/
inductive TimeoutError (α : Type) where
  | inner (e : α)
  | elapsed
  | timer (t : TimerError)
  deriving DecidableEq, Repr

/-- `TimeoutError::into_inner`: the inner error when the wrapped operation
had already failed, `none` otherwise. -/
def TimeoutError.into_inner {α : Type} : TimeoutError α → Option α
  | .inner e => some e
  | .elapsed => none
  | .timer _ => none

/-- `impl From<TimeoutError<Error>> for Error`: surface the recorded inner
error when present, otherwise synthesize the generic driver timeout. -/
def Error.fromTimeout (err : TimeoutError Error) : Error :=
  match err.into_inner with
  | none => Error.Driver DriverError.Timeout
  | some inner => inner

/-- `impl From<Utf8Error> for Error`. -/
def Error.fromUtf8 (e : Utf8Error) : Error := Error.Driver (DriverError.Utf8Error e)

/-- `impl From<ConnectionError> for Error`. -/
def Error.fromConnection (e : ConnectionError) : Error := Error.Connection e

/-- Model of `futures::Async` (tokio 0.1 poll payload): a ready value or
the not-ready ("pending, retry later") scheduling signal. -/
inductive Async (α : Type) where
  | Ready (x : α)
  | NotReady
  deriving DecidableEq, Repr

/-- `impl<S> Into<Poll<Option<Packet<S>>, Error>> for Error` from
`errors.rs`.  `Poll<T, E>` is `Result<Async<T>, E>`, modelled as
`Except E (Async T)`; the packet type is an arbitrary `α`.  A
Transport/IO error of kind `WouldBlock` becomes `Ok(NotReady)`; any other
Transport/IO error is returned as `Err(Error::Io(_))` carrying the native
payload moved out intact (the `mem::replace` in the source); every other
variant is returned unchanged under `Err` (after a log emission, a side
effect outside the value semantics). -/
def Error.intoPoll (α : Type) (e : Error) : Except Error (Async (Option α)) :=
  match e with
  | .Io ioe =>
      if ioe.kind = IoErrorKind.wouldBlock then Except.ok Async.NotReady
      else Except.error (Error.Io ioe)
  | e => Except.error e

/-- Whether a unified error is a Transport/IO error of kind
`WouldBlock` (the condition tested by the poll adapter). -/
def Error.isWouldBlock : Error → Bool
  | .Io ioe => ioe.kind = IoErrorKind.wouldBlock
  | _ => false

/-- Model of the derived `Debug` rendering used by
`impl From<Error> for io::Error` (`format!` with the debug formatter);
payloads of external types are rendered from their modelled fields. -/
def debugFmt : Error → String
  | .Driver e => "Driver(" ++ reprStr e ++ ")"
  | .Io e => "Io(" ++ reprStr e ++ ")"
  | .Connection e => "Connection(" ++ reprStr e ++ ")"
  | .Other e => "Other(" ++ reprStr e ++ ")"
  | .Server e => "Server(" ++ reprStr e ++ ")"
  | .Url e => "Url(" ++ reprStr e ++ ")"
  | .FromSql e => "FromSql(" ++ reprStr e ++ ")"

/-- `impl From<Error> for io::Error`: the `Io` variant returns its native
payload unchanged; every other variant collapses to an `Other`-kind
I/O error whose message is the debug rendering of the original. -/
def IoError.fromError : Error → IoError
  | .Io e => e
  | e => IoError.mk IoErrorKind.other (debugFmt e)

/-- Model of `chrono_tz::Tz` (external type): an opaque timezone
identifier, forwarded untouched to the temporal decoder. -/
structure Tz where
  name : String
  deriving DecidableEq, Repr

/-- The element types over which `VectorColumnData::<T>` is instantiated
in `factory.rs` (floats are carried as raw bit patterns). -/
inductive ElemType where
  | u8 | u16 | u32 | u64 | i8 | i16 | i32 | i64 | f32 | f64
  deriving DecidableEq, Repr

/-- Byte width of an element type. -/
def ElemType.width : ElemType → Nat
  | .u8 => 1 | .u16 => 2 | .u32 => 4 | .u64 => 8
  | .i8 => 1 | .i16 => 2 | .i32 => 4 | .i64 => 8
  | .f32 => 4 | .f64 => 8

/-- Whether an element type is reinterpreted as a signed
(two's-complement) integer. -/
def ElemType.signed : ElemType → Bool
  | .i8 => true | .i16 => true | .i32 => true | .i64 => true
  | _ => false

/-- Little-endian value of a byte list. -/
def leNat : List Nat → Nat
  | [] => 0
  | b :: bs => b + 256 * leNat bs

/-- Split a byte list into consecutive chunks of `w` bytes. -/
def chunks : Nat → List Nat → List (List Nat)
  | _, [] => []
  | 0, _ => []
  | w + 1, b :: bs => (b :: bs.take w) :: chunks (w + 1) (bs.drop w)
termination_by _ l => l.length
decreasing_by
  simp only [List.length_cons, List.length_drop]
  omega

/-- Reinterpret one chunk of raw bytes as a value of the element type:
unsigned and float types keep the raw little-endian value, signed types
take the two's-complement reading. -/
def decodeElem (t : ElemType) (bytes : List Nat) : Int :=
  let u := leNat bytes
  if t.signed ∧ 2 ^ (8 * t.width - 1) ≤ u then (u : Int) - 2 ^ (8 * t.width)
  else (u : Int)

/-- The decoded column buffer (`Arc<ColumnData + Send + Sync>` in the
source): a numeric vector, a sequence of byte strings, or a temporal
column tagged with the timezone supplied at decode time. -/
inductive ColumnData where
  | vec (t : ElemType) (vals : List Int)
  | str (vals : List (List Nat))
  | date (width : Nat) (vals : List Nat) (tz : Tz)
  deriving DecidableEq, Repr

/-- Read exactly `k` bytes from the reader (the remaining byte list),
returning them with the rest of the stream; a short read is a
Transport/IO failure. -/
def readBytes (r : List Nat) (k : Nat) : Except IoError (List Nat × List Nat) :=
  if k ≤ r.length then Except.ok (r.take k, r.drop k)
  else Except.error (IoError.mk IoErrorKind.unexpectedEof "failed to fill whole buffer")

/-- Modelled from the spec: `VectorColumnData::<T>::load` (its source
file `column/numeric.rs` is not part of the observed sources).  Spec
section 4.2: reads exactly `size * sizeof(T)` bytes and reinterprets them
as `size` fixed-width values; a short read is a Transport/IO error and no
partial buffer is produced. -/
def VectorColumnData.load (t : ElemType) (reader : List Nat) (size : Nat) :
    Except IoError ColumnData := do
  let (bs, _) ← readBytes reader (size * t.width)
  Except.ok (ColumnData.vec t ((chunks t.width bs).map (decodeElem t)))

/-- Modelled from the spec: the per-element loop of
`StringColumnData::load` (its source file `column/string.rs` is not part
of the observed sources).  Spec section 4.3: each element is a
length-prefixed byte string; the exact variable-length size encoding is
left open by the spec, modelled here as a single length byte. -/
def readStrings : List Nat → Nat → Except IoError (List (List Nat) × List Nat)
  | r, 0 => Except.ok ([], r)
  | r, n + 1 => do
      let (lenBytes, r1) ← readBytes r 1
      let (s, r2) ← readBytes r1 (leNat lenBytes)
      let (rest, r3) ← readStrings r2 n
      Except.ok (s :: rest, r3)

/-- Modelled from the spec: `StringColumnData::load` (source file not
observed).  Reads `size` length-prefixed byte strings in wire order. -/
def StringColumnData.load (reader : List Nat) (size : Nat) :
    Except IoError ColumnData := do
  let (vals, _) ← readStrings reader size
  Except.ok (ColumnData.str vals)

/-- Modelled from the spec: `DateColumnData::<T>::load` (its source file
`column/date.rs` is not part of the observed sources).  Spec section 4.4:
reads `size` raw fixed-width unsigned integers (`width` bytes each) and
tags the column with the supplied timezone; the raw value itself is
timezone-independent. -/
def DateColumnData.load (width : Nat) (reader : List Nat) (size : Nat) (tz : Tz) :
    Except IoError ColumnData := do
  let (bs, _) ← readBytes reader (size * width)
  Except.ok (ColumnData.date width ((chunks width bs).map leNat) tz)

/-- The thirteen wire type identifiers recognized by the dispatcher. -/
def recognizedTypes : List String :=
  ["UInt8", "UInt16", "UInt32", "UInt64",
   "Int8", "Int16", "Int32", "Int64",
   "Float32", "Float64", "String", "Date", "DateTime"]

/-- `ColumnData::load_data` from `factory.rs`: dispatch on the exact type
name string to the matching decoder (the sequential string match of the
source, written as the equivalent comparison chain); any other name fails
with an `Other`-kind `io::Error` whose message embeds the name. -/
def ColumnData.load_data (reader : List Nat) (type_name : String) (size : Nat) (tz : Tz) :
    Except IoError ColumnData :=
  if type_name = "UInt8" then VectorColumnData.load ElemType.u8 reader size
  else if type_name = "UInt16" then VectorColumnData.load ElemType.u16 reader size
  else if type_name = "UInt32" then VectorColumnData.load ElemType.u32 reader size
  else if type_name = "UInt64" then VectorColumnData.load ElemType.u64 reader size
  else if type_name = "Int8" then VectorColumnData.load ElemType.i8 reader size
  else if type_name = "Int16" then VectorColumnData.load ElemType.i16 reader size
  else if type_name = "Int32" then VectorColumnData.load ElemType.i32 reader size
  else if type_name = "Int64" then VectorColumnData.load ElemType.i64 reader size
  else if type_name = "Float32" then VectorColumnData.load ElemType.f32 reader size
  else if type_name = "Float64" then VectorColumnData.load ElemType.f64 reader size
  else if type_name = "String" then StringColumnData.load reader size
  else if type_name = "Date" then DateColumnData.load 2 reader size tz
  else if type_name = "DateTime" then DateColumnData.load 4 reader size tz
  else Except.error
    (IoError.mk IoErrorKind.other ("Unsupported column type \"" ++ type_name ++ "\"."))

/-! Shared helper lemmas. -/

/-- Dispatch on a type name outside the recognized set returns exactly the
`Other`-kind I/O error embedding the name in its message. -/
theorem load_data_not_recognized (X : String) (hX : X ∉ recognizedTypes)
    (r : List Nat) (n : Nat) (tz : Tz) :
    ColumnData.load_data r X n tz =
      Except.error (IoError.mk IoErrorKind.other
        ("Unsupported column type \"" ++ X ++ "\".")) := by
  simp only [recognizedTypes, List.mem_cons, List.not_mem_nil, or_false] at hX
  push_neg at hX
  obtain ⟨h1, h2, h3, h4, h5, h6, h7, h8, h9, h10, h11, h12, h13⟩ := hX
  simp [ColumnData.load_data, h1, h2, h3, h4, h5, h6, h7, h8, h9, h10, h11, h12, h13]

/-! Claim theorems. -/

/-- C1: converting a unified `Error` into a poll result yields the
`NotReady` (Pending) signal exactly when the error is a Transport/IO
error of kind `WouldBlock`; every other error (IO of any other kind, or
any non-IO variant) is emitted on the `Err` (Failed) branch carrying an
error. -/
theorem intoPoll_wouldBlock_pending (α : Type) (e : Error) :
    Error.intoPoll α e =
      (if e.isWouldBlock = true then Except.ok Async.NotReady
       else Except.error e) := by
  cases e with
  | Io ioe =>
      by_cases hk : ioe.kind = IoErrorKind.wouldBlock <;>
        simp [Error.intoPoll, Error.isWouldBlock, hk]
  | Driver e => simp [Error.intoPoll, Error.isWouldBlock]
  | Connection e => simp [Error.intoPoll, Error.isWouldBlock]
  | Other e => simp [Error.intoPoll, Error.isWouldBlock]
  | Server e => simp [Error.intoPoll, Error.isWouldBlock]
  | Url e => simp [Error.intoPoll, Error.isWouldBlock]
  | FromSql e => simp [Error.intoPoll, Error.isWouldBlock]

/-- C10: the poll conversion never produces a `Ready` value: for every
input error the outcome is the `NotReady` signal or an error, and on the
error branch the emitted error equals the input error (the native I/O
payload is moved out intact for Transport/IO errors, every other variant
is returned unchanged). -/
theorem intoPoll_never_ready (α : Type) (e : Error) :
    Error.intoPoll α e = Except.ok Async.NotReady ∨
    Error.intoPoll α e = Except.error e := by
  cases e with
  | Io ioe =>
      by_cases hk : ioe.kind = IoErrorKind.wouldBlock
      · exact Or.inl (by simp [Error.intoPoll, hk])
      · exact Or.inr (by simp [Error.intoPoll, hk])
  | Driver e => exact Or.inr rfl
  | Connection e => exact Or.inr rfl
  | Other e => exact Or.inr rfl
  | Server e => exact Or.inr rfl
  | Url e => exact Or.inr rfl
  | FromSql e => exact Or.inr rfl

/-- C3: converting a timeout failure whose wrapped operation had already
failed with a concrete error `e` yields exactly `e`; converting a timeout
failure carrying no inner error (deadline elapsed, or timer fault) yields
the generic `Driver Timeout` error; the conversion is a total function,
so it never yields both or any other value. -/
theorem fromTimeout_inner_or_generic (e : Error) (t : TimerError) :
    (TimeoutError.inner e).into_inner = some e ∧
    Error.fromTimeout (TimeoutError.inner e) = e ∧
    (TimeoutError.elapsed : TimeoutError Error).into_inner = none ∧
    Error.fromTimeout TimeoutError.elapsed = Error.Driver DriverError.Timeout ∧
    (TimeoutError.timer t : TimeoutError Error).into_inner = none ∧
    Error.fromTimeout (TimeoutError.timer t) = Error.Driver DriverError.Timeout :=
  ⟨rfl, rfl, rfl, rfl, rfl, rfl⟩

/-- C6: every conversion from a lower-level failure into the unified
`Error` picks exactly one tag deterministically, per the classification
table: io failure to Transport/IO carrying the native payload, server
error record to Server, URL parse failure (and URL error) to URL/Config,
connection-setup failure to Connection, driver failure to Driver,
caller-supplied string to Other. -/
theorem from_impls_pick_tag (ioe : IoError) (se : ServerError) (pe : ParseError)
    (ue : UrlError) (ce : ConnectionError) (de : DriverError) (s : String) :
    Error.fromIo ioe = Error.Io ioe ∧ (Error.fromIo ioe).tag = ErrorTag.transport ∧
    Error.fromServer se = Error.Server se ∧ (Error.fromServer se).tag = ErrorTag.server ∧
    Error.fromParse pe = Error.Url (UrlError.Parse pe) ∧ (Error.fromParse pe).tag = ErrorTag.url ∧
    Error.fromUrl ue = Error.Url ue ∧ (Error.fromUrl ue).tag = ErrorTag.url ∧
    Error.fromConnection ce = Error.Connection ce ∧
    (Error.fromConnection ce).tag = ErrorTag.connection ∧
    Error.fromDriver de = Error.Driver de ∧ (Error.fromDriver de).tag = ErrorTag.driver ∧
    Error.fromString s = Error.Other (FailureError.ofString s) ∧
    (Error.fromString s).tag = ErrorTag.other :=
  ⟨rfl, rfl, rfl, rfl, rfl, rfl, rfl, rfl, rfl, rfl, rfl, rfl, rfl, rfl⟩

/-- C7 counterexample: a concrete UTF-8 decoding fault is not classified
under the TypeConversion (`FromSql`) tag. -/
theorem fromUtf8_not_typeConversion_cex :
    (Error.fromUtf8 (Utf8Error.mk 0 (some 1))).tag ≠ ErrorTag.fromSql := by
  decide

/-- C7 amended: a byte-slice UTF-8 decoding fault is classified under the
Driver tag, wrapping the fault (`DriverError::Utf8Error`); a
String-conversion UTF-8 fault (`FromUtf8Error`) is classified under the
Other tag, wrapping the fault. -/
theorem utf8_faults_driver_or_other (u : Utf8Error) (fu : FromUtf8Error) :
    Error.fromUtf8 u = Error.Driver (DriverError.Utf8Error u) ∧
    (Error.fromUtf8 u).tag = ErrorTag.driver ∧
    Error.fromFromUtf8 fu = Error.Other (FailureError.ofFromUtf8 fu) ∧
    (Error.fromFromUtf8 fu).tag = ErrorTag.other :=
  ⟨rfl, rfl, rfl, rfl⟩

/-- C9: the compatibility conversion from the unified `Error` to an
I/O-style failure returns the carried native I/O error unchanged when the
input bears the Transport/IO tag, and for every other tag returns a
generic (`Other`) kind failure whose textual description is the debug
rendering of the original error. -/
theorem error_into_ioError (e : Error) :
    (∀ ioe : IoError, IoError.fromError (Error.Io ioe) = ioe) ∧
    (e.tag ≠ ErrorTag.transport →
      IoError.fromError e = IoError.mk IoErrorKind.other (debugFmt e)) := by
  refine ⟨fun ioe => rfl, fun h => ?_⟩
  cases e with
  | Io ioe => exact absurd rfl h
  | Driver e => rfl
  | Connection e => rfl
  | Other e => rfl
  | Server e => rfl
  | Url e => rfl
  | FromSql e => rfl

/-- C9 witness: the conversion at the concrete non-IO error
`Driver Timeout` collapses to an `Other`-kind I/O failure carrying the
debug rendering. -/
theorem error_into_ioError_witness :
    IoError.fromError (Error.Driver DriverError.Timeout) =
      IoError.mk IoErrorKind.other (debugFmt (Error.Driver DriverError.Timeout)) :=
  (error_into_ioError (Error.Driver DriverError.Timeout)).2 (by decide)

/-- C8: dispatch of the temporal types forwards the caller's timezone and
uses the specified raw widths: `"Date"` invokes the temporal decoder at
2-byte (16-bit) raw integers with the supplied timezone, `"DateTime"`
invokes it at 4-byte (32-bit) raw integers with the supplied timezone. -/
theorem load_data_temporal (r : List Nat) (n : Nat) (tz : Tz) :
    ColumnData.load_data r "Date" n tz = DateColumnData.load 2 r n tz ∧
    ColumnData.load_data r "DateTime" n tz = DateColumnData.load 4 r n tz :=
  ⟨rfl, rfl⟩

/-- C2: for every type name outside the recognized set, dispatch fails
for any reader state, count and timezone, and the message of the returned
error is exactly the string `Unsupported column type "X".` with the name
embedded verbatim. -/
theorem load_data_unsupported_message (X : String) (hX : X ∉ recognizedTypes)
    (r : List Nat) (n : Nat) (tz : Tz) :
    ColumnData.load_data r X n tz =
      Except.error (IoError.mk IoErrorKind.other
        ("Unsupported column type \"" ++ X ++ "\".")) :=
  load_data_not_recognized X hX r n tz

/-- C2 witness: the unrecognized name `Foo` fails with exactly the
message `Unsupported column type "Foo".`. -/
theorem load_data_unsupported_message_witness :
    ("Foo" ∉ recognizedTypes) ∧
    ColumnData.load_data [] "Foo" 0 (Tz.mk "UTC") =
      Except.error (IoError.mk IoErrorKind.other
        ("Unsupported column type \"" ++ "Foo" ++ "\".")) :=
  ⟨by decide, load_data_unsupported_message "Foo" (by decide) [] 0 (Tz.mk "UTC")⟩

/-- C4: the dispatcher recognizes exactly the thirteen identifiers by
case-sensitive exact match, delegating each to its decoder (numeric
decoder at the matching element type, text decoder, temporal decoder at
the matching width with the timezone), and every other string takes the
failure branch. -/
theorem load_data_dispatch (r : List Nat) (n : Nat) (tz : Tz) :
    (ColumnData.load_data r "UInt8" n tz = VectorColumnData.load ElemType.u8 r n ∧
     ColumnData.load_data r "UInt16" n tz = VectorColumnData.load ElemType.u16 r n ∧
     ColumnData.load_data r "UInt32" n tz = VectorColumnData.load ElemType.u32 r n ∧
     ColumnData.load_data r "UInt64" n tz = VectorColumnData.load ElemType.u64 r n ∧
     ColumnData.load_data r "Int8" n tz = VectorColumnData.load ElemType.i8 r n ∧
     ColumnData.load_data r "Int16" n tz = VectorColumnData.load ElemType.i16 r n ∧
     ColumnData.load_data r "Int32" n tz = VectorColumnData.load ElemType.i32 r n ∧
     ColumnData.load_data r "Int64" n tz = VectorColumnData.load ElemType.i64 r n ∧
     ColumnData.load_data r "Float32" n tz = VectorColumnData.load ElemType.f32 r n ∧
     ColumnData.load_data r "Float64" n tz = VectorColumnData.load ElemType.f64 r n ∧
     ColumnData.load_data r "String" n tz = StringColumnData.load r n ∧
     ColumnData.load_data r "Date" n tz = DateColumnData.load 2 r n tz ∧
     ColumnData.load_data r "DateTime" n tz = DateColumnData.load 4 r n tz) ∧
    (∀ name, name ∉ recognizedTypes →
      ∃ e, ColumnData.load_data r name n tz = Except.error e) := by
  refine ⟨⟨rfl, rfl, rfl, rfl, rfl, rfl, rfl, rfl, rfl, rfl, rfl, rfl, rfl⟩, ?_⟩
  intro name h
  exact ⟨_, load_data_not_recognized name h r n tz⟩

/-- C4 witness: the thirteen recognized names delegate as stated at a
concrete input, and the unrecognized name `Foo` takes the failure
branch. -/
theorem load_data_dispatch_witness :
    ("Foo" ∉ recognizedTypes) ∧
    (∃ e, ColumnData.load_data [] "Foo" 0 (Tz.mk "UTC") = Except.error e) :=
  ⟨by decide, (load_data_dispatch [] 0 (Tz.mk "UTC")).2 "Foo" (by decide)⟩

/-- C5 counterexample: the failure produced by dispatch for the unknown
name `Foo`, carried into the unified taxonomy by the io conversion, bears
the Transport/IO tag, which is neither the Driver tag nor the
TypeConversion (`FromSql`) tag — refuting the claim that it bears a
TypeConversion/Driver tag. -/
theorem load_data_unsupported_tag_cex :
    ColumnData.load_data [] "Foo" 0 (Tz.mk "UTC") =
      Except.error (IoError.mk IoErrorKind.other
        ("Unsupported column type \"" ++ "Foo" ++ "\".")) ∧
    (Error.fromIo (IoError.mk IoErrorKind.other
        ("Unsupported column type \"" ++ "Foo" ++ "\"."))).tag = ErrorTag.transport ∧
    ErrorTag.transport ≠ ErrorTag.driver ∧
    ErrorTag.transport ≠ ErrorTag.fromSql :=
  ⟨load_data_not_recognized "Foo" (by decide) [] 0 (Tz.mk "UTC"), rfl,
   by decide, by decide⟩

/-- C5 amended: the failure produced by dispatch for a type name not in
the known set is an io error of generic (`Other`) kind; carried into the
unified taxonomy it bears the Transport/IO tag (not the TypeConversion or
Driver tag). -/
theorem load_data_unsupported_tag (X : String) (hX : X ∉ recognizedTypes)
    (r : List Nat) (n : Nat) (tz : Tz) :
    ∃ ioe : IoError, ColumnData.load_data r X n tz = Except.error ioe ∧
      ioe.kind = IoErrorKind.other ∧
      (Error.fromIo ioe).tag = ErrorTag.transport :=
  ⟨_, load_data_not_recognized X hX r n tz, rfl, rfl⟩

/-- C5 amended witness: the unknown name `Foo` yields an `Other`-kind io
error that lifts to the Transport/IO tag. -/
theorem load_data_unsupported_tag_witness :
    ("Foo" ∉ recognizedTypes) ∧
    (∃ ioe : IoError, ColumnData.load_data [] "Foo" 0 (Tz.mk "UTC") = Except.error ioe ∧
      ioe.kind = IoErrorKind.other ∧
      (Error.fromIo ioe).tag = ErrorTag.transport) :=
  ⟨by decide, load_data_unsupported_tag "Foo" (by decide) [] 0 (Tz.mk "UTC")⟩

end ClickhouseRs
